import Mathlib

/-!
# hello-ospray: the call sequence of `main` (src/main.cpp)

`main` is one straight-line procedure: it initialises the rendering library,
returns early when that fails, and otherwise issues a fixed sequence of
library calls, writes one PNG and shuts the library down.  The embedding
records every call of `main`, in source order and with the arguments the
source passes, as a list of `Call` values; handles are named after the C++
variables that hold them.
-/

namespace HelloOspray

/-! ## Data model -/

/-- Handles held by `main`, named after the C++ variables; `light0` is the
element `lights[0]` of the vector `lights`. -/
inductive Obj where
  | triangle
  | triangleVertexBuffer
  | triangleIndexBuffer
  | triangleUVbuffer
  | texture
  | texelsBuffer
  | material
  | scene
  | camera
  | light0
  | lightData
  | renderer
  | frameBuffer
  deriving DecidableEq, Repr

/-- Every handle variable of `main`, in order of creation. -/
def allObjs : List Obj :=
  [.triangle, .triangleVertexBuffer, .triangleIndexBuffer, .triangleUVbuffer,
   .texture, .texelsBuffer, .material, .scene, .camera, .light0, .lightData,
   .renderer, .frameBuffer]

/-- Constant `TRIANGLE_VERTICES` of main.cpp, lines 28-32.  Every float
literal of the program (0, 1, 2, -1) is exactly representable, so the values
are kept as rationals. -/
def TRIANGLE_VERTICES : List ℚ := [0, 0, 0, 1, 1, 0, 1, 0, 0]

/-- Constant `TRIANGLE_INDICES` of main.cpp, lines 33-35. -/
def TRIANGLE_INDICES : List Int := [0, 1, 2]

/-- Constant `TRIANGLE_UVS` of main.cpp, lines 36-40. -/
def TRIANGLE_UVS : List ℚ := [0, 0, 1, 1, 1, 0]

/-- Constant `TEXELS` of main.cpp, lines 76-81. -/
def TEXELS : List Nat := [255, 0, 0, 0, 255, 0, 0, 0, 255, 255, 255, 0]

/-- Application memory handed to `ospNewData`: the four constant arrays and
the storage of the vector `lights`. -/
inductive Arr where
  | TRIANGLE_VERTICES
  | TRIANGLE_INDICES
  | TRIANGLE_UVS
  | TEXELS
  | lights
  deriving DecidableEq, Repr

/-- Number of elements of each array; `lights` holds the one light pushed at
line 128, so `lights.size()` is 1. -/
def Arr.len : Arr → Nat
  | .TRIANGLE_VERTICES => HelloOspray.TRIANGLE_VERTICES.length
  | .TRIANGLE_INDICES => HelloOspray.TRIANGLE_INDICES.length
  | .TRIANGLE_UVS => HelloOspray.TRIANGLE_UVS.length
  | .TEXELS => HelloOspray.TEXELS.length
  | .lights => 1

/-- The C++ `sizeof(A[0])`: `float` and `int32_t` take 4 bytes, `uint8_t` 1
byte, and an `OSPLight` is a pointer (8 bytes). -/
def Arr.elemSize : Arr → Nat
  | .TRIANGLE_VERTICES => 4
  | .TRIANGLE_INDICES => 4
  | .TRIANGLE_UVS => 4
  | .TEXELS => 1
  | .lights => 8

/-- The C++ `sizeof(A)`: the byte size of the whole array. -/
def Arr.sizeof (a : Arr) : Nat := a.len * a.elemSize

/-- Element types passed to `ospNewData` by `main`. -/
inductive OSPDataType where
  | OSP_FLOAT3
  | OSP_INT
  | OSP_FLOAT2
  | OSP_UCHAR
  | OSP_LIGHT
  deriving DecidableEq, Repr

/-- Modelled from the spec: the byte size of one element of each library data
type (the header ospray.h is not part of the sources): a position is 3
floats, a texture coordinate 2 floats, an index one 32-bit integer, a texel
channel one byte, a light one handle. -/
def OSPDataType.byteSize : OSPDataType → Nat
  | .OSP_FLOAT3 => 3 * 4
  | .OSP_INT => 4
  | .OSP_FLOAT2 => 2 * 4
  | .OSP_UCHAR => 1
  | .OSP_LIGHT => 8

/-- Creation flags of `ospNewData`; the literal `0` of line 130 is the empty
list of flags. -/
inductive OSPDataCreationFlags where
  | OSP_DATA_SHARED_BUFFER
  deriving DecidableEq, Repr

/-- Integer arguments of `ospSet1i`: a literal or one of the two library
enumerators the source passes. -/
inductive IntArg where
  | lit (n : Int)
  | OSP_TEXTURE_RGB8
  | OSP_TEXTURE_FILTER_NEAREST
  deriving DecidableEq, Repr

/-- Frame buffer pixel formats used by `main`. -/
inductive OSPFrameBufferFormat where
  | OSP_FB_RGBA8
  deriving DecidableEq, Repr

/-- Modelled from the spec: bytes per pixel of a frame buffer format (ospray.h
is not part of the sources); the format used is "8-bit-per-channel" RGBA,
four channels of one byte. -/
def OSPFrameBufferFormat.bytesPerPixel : OSPFrameBufferFormat → Nat
  | .OSP_FB_RGBA8 => 4

/-- Frame buffer channels used by `main`. -/
inductive OSPFrameBufferChannel where
  | OSP_FB_COLOR
  deriving DecidableEq, Repr

/-- Pointers `main` passes to the PNG writer and to `ospUnmapFrameBuffer`:
the value returned by `ospMapFrameBuffer fb channel`. -/
inductive Ptr where
  | mapped (fb : Obj) (channel : OSPFrameBufferChannel)
  deriving DecidableEq, Repr

/-- One call made by `main`.  A creation call carries, as its first field,
the variable that receives the new handle. -/
inductive Call where
  | ospInit (argv : List String)
  | cerr (text : String)
  | ospNewGeometry (h : Obj) (type : String)
  | ospNewData (h : Obj) (numItems : Nat) (type : OSPDataType) (source : Arr)
      (flags : List OSPDataCreationFlags)
  | ospNewTexture (h : Obj) (type : String)
  | ospNewMaterial2 (h : Obj) (rendererType materialType : String)
  | ospNewModel (h : Obj)
  | ospNewCamera (h : Obj) (type : String)
  | ospNewLight3 (h : Obj) (type : String)
  | ospNewRenderer (h : Obj) (type : String)
  | ospNewFrameBuffer (h : Obj) (sizeX sizeY : Int) (format : OSPFrameBufferFormat)
      (channels : List OSPFrameBufferChannel)
  | ospCommit (o : Obj)
  | ospRelease (o : Obj)
  | ospSetData (o : Obj) (id : String) (data : Obj)
  | ospSetObject (o : Obj) (id : String) (other : Obj)
  | ospSetMaterial (geometry : Obj) (mat : Obj)
  | ospAddGeometry (model : Obj) (geometry : Obj)
  | ospSet1i (o : Obj) (id : String) (x : IntArg)
  | ospSet2i (o : Obj) (id : String) (x y : Int)
  | ospSet1f (o : Obj) (id : String) (x : ℚ)
  | ospSet3f (o : Obj) (id : String) (x y z : ℚ)
  | ospRenderFrame (fb : Obj) (rend : Obj) (channels : List OSPFrameBufferChannel)
  | ospMapFrameBuffer (fb : Obj) (channel : OSPFrameBufferChannel)
  | stbi_write_png (filename : String) (w h comp : Int) (data : Ptr) (stride : Int)
  | ospUnmapFrameBuffer (mapped : Ptr) (fb : Obj)
  | ospShutdown

/-- Status type returned by `ospInit`, a C enumeration. -/
abbrev OSPError := Int

/-- Modelled from the spec: the enumerator `OSP_NO_ERROR` of ospray.h (not part
of the sources), the status of an initialization that succeeded; its value in
the library is 0. -/
def OSP_NO_ERROR : OSPError := 0

/-- Modelled from the spec: the `<cstdlib>` value `EXIT_SUCCESS`; the spec
gives "success (0)". -/
def EXIT_SUCCESS : Int := 0

/-- Modelled from the spec: the `<cstdlib>` value `EXIT_FAILURE`; the spec
gives "failure (non-zero)", and the value on the usual platforms is 1. -/
def EXIT_FAILURE : Int := 1

/-- What the outside world answers to the two calls of `main` that return a
status: `ospInit` (the only result `main` inspects) and `stbi_write_png`
(whose result `main` discards). -/
structure World where
  ospInit : List String → OSPError
  stbi_write_png : Int

/-- Result of a run of `main`: the exit status and the calls made, in order. -/
structure Outcome where
  exit : Int
  trace : List Call

/-- Constant `IMAGE_DIMENSIONS` of main.cpp, line 146. -/
def IMAGE_DIMENSIONS : Int × Int := (400, 400)

/-- Text `main` sends to `std::cerr` at lines 14-15: the two string literals
followed by `std::endl`. -/
def initErrorText : String :=
  "An error occurred while attempting to initialize OSPRay " ++
    "so this program will now exit." ++ "\n"

/-- Calls of `main` after a successful `ospInit`, lines 23-169 of main.cpp,
in source order. -/
def renderCalls : List Call :=
  [ .ospNewGeometry .triangle "triangles",
    .ospNewData .triangleVertexBuffer
      (Arr.sizeof .TRIANGLE_VERTICES / Arr.elemSize .TRIANGLE_VERTICES)
      .OSP_FLOAT3 .TRIANGLE_VERTICES [.OSP_DATA_SHARED_BUFFER],
    .ospCommit .triangleVertexBuffer,
    .ospNewData .triangleIndexBuffer
      (Arr.sizeof .TRIANGLE_INDICES / Arr.elemSize .TRIANGLE_INDICES)
      .OSP_INT .TRIANGLE_INDICES [.OSP_DATA_SHARED_BUFFER],
    .ospCommit .triangleIndexBuffer,
    .ospNewData .triangleUVbuffer
      (Arr.sizeof .TRIANGLE_UVS / Arr.elemSize .TRIANGLE_UVS / 2)
      .OSP_FLOAT2 .TRIANGLE_UVS [.OSP_DATA_SHARED_BUFFER],
    .ospCommit .triangleUVbuffer,
    .ospSetData .triangle "vertex" .triangleVertexBuffer,
    .ospSetData .triangle "index" .triangleIndexBuffer,
    .ospSetData .triangle "vertex.texcoord" .triangleUVbuffer,
    .ospRelease .triangleVertexBuffer,
    .ospRelease .triangleIndexBuffer,
    .ospRelease .triangleUVbuffer,
    .ospNewTexture .texture "texture2d",
    .ospSet2i .texture "size" 2 2,
    .ospSet1i .texture "type" .OSP_TEXTURE_RGB8,
    .ospSet1i .texture "flags" .OSP_TEXTURE_FILTER_NEAREST,
    .ospNewData .texelsBuffer
      (Arr.sizeof .TEXELS / Arr.elemSize .TEXELS)
      .OSP_UCHAR .TEXELS [.OSP_DATA_SHARED_BUFFER],
    .ospCommit .texelsBuffer,
    .ospSetData .texture "data" .texelsBuffer,
    .ospCommit .texture,
    .ospRelease .texelsBuffer,
    .ospNewMaterial2 .material "pathtracer" "OBJMaterial",
    .ospSetObject .material "map_Kd" .texture,
    .ospCommit .material,
    .ospRelease .texture,
    .ospSetMaterial .triangle .material,
    .ospCommit .triangle,
    .ospRelease .material,
    .ospNewModel .scene,
    .ospAddGeometry .scene .triangle,
    .ospCommit .scene,
    .ospRelease .triangle,
    .ospNewCamera .camera "orthographic",
    .ospSet1f .camera "height" 2,
    .ospSet1f .camera "width" 2,
    .ospSet3f .camera "pos" 0 0 (-1),
    .ospCommit .camera,
    .ospNewLight3 .light0 "ambient",
    .ospCommit .light0,
    .ospNewData .lightData (Arr.len .lights) .OSP_LIGHT .lights [],
    .ospCommit .lightData,
    .ospNewRenderer .renderer "pathtracer",
    .ospSetObject .renderer "model" .scene,
    .ospSetObject .renderer "camera" .camera,
    .ospSetObject .renderer "lights" .lightData,
    .ospSet1i .renderer "spp" (.lit 1),
    .ospCommit .renderer,
    .ospRelease .camera,
    .ospRelease .scene,
    .ospRelease .lightData,
    .ospNewFrameBuffer .frameBuffer IMAGE_DIMENSIONS.1 IMAGE_DIMENSIONS.2
      .OSP_FB_RGBA8 [.OSP_FB_COLOR],
    .ospCommit .frameBuffer,
    .ospRenderFrame .frameBuffer .renderer [.OSP_FB_COLOR],
    .ospMapFrameBuffer .frameBuffer .OSP_FB_COLOR,
    .stbi_write_png "output.png" IMAGE_DIMENSIONS.1 IMAGE_DIMENSIONS.2 4
      (.mapped .frameBuffer .OSP_FB_COLOR) (IMAGE_DIMENSIONS.1 * 4),
    .ospUnmapFrameBuffer (.mapped .frameBuffer .OSP_FB_COLOR) .frameBuffer,
    .ospRelease .light0,
    .ospRelease .renderer,
    .ospRelease .frameBuffer,
    .ospShutdown ]

/-- The function `main` of main.cpp: `argv` is forwarded to `ospInit`; when the
status differs from `OSP_NO_ERROR` the message goes to `std::cerr` and `main`
returns `EXIT_FAILURE` (lines 13-17); otherwise the calls of lines 23-169
follow and `main` returns `EXIT_SUCCESS` (line 171). -/
def main (argv : List String) (w : World) : Outcome :=
  if w.ospInit argv ≠ OSP_NO_ERROR then
    { exit := EXIT_FAILURE
      trace := [.ospInit argv, .cerr initErrorText] }
  else
    { exit := EXIT_SUCCESS
      trace := .ospInit argv :: renderCalls }

/-! ## Reading the trace -/

/-- Whether a call is a call of the PNG writer. -/
def Call.isPngWrite : Call → Bool
  | .stbi_write_png .. => true
  | _ => false

/-- Whether a call creates a frame buffer. -/
def Call.isNewFrameBuffer : Call → Bool
  | .ospNewFrameBuffer .. => true
  | _ => false

/-- Whether a call maps a frame buffer. -/
def Call.isMapFrameBuffer : Call → Bool
  | .ospMapFrameBuffer .. => true
  | _ => false

/-- Whether a call is a call into the rendering library: every call except
the write to `std::cerr` and the PNG writer. -/
def Call.isLibraryCall : Call → Bool
  | .cerr _ => false
  | .stbi_write_png .. => false
  | _ => true

/-- Bytes the PNG writer reads from its data pointer: `h` rows of `stride`
bytes each; 0 for any other call. -/
def Call.pngBytesRead : Call → Int
  | .stbi_write_png _ _ h _ _ stride => h * stride
  | _ => 0

/-- Byte size of the colour channel of a frame buffer created by the call:
width times height times the bytes per pixel of its format; 0 for any other
call. -/
def Call.frameBufferBytes : Call → Int
  | .ospNewFrameBuffer _ sizeX sizeY format _ => sizeX * sizeY * format.bytesPerPixel
  | _ => 0

/-- For a call creating a shared (zero-copy) data buffer: the handle, the
declared element count, the bytes the declaration describes (count times the
byte size of the element type) and the byte size of the backing array. -/
def Call.sharedView : Call → Option (Obj × Nat × Nat × Nat)
  | .ospNewData h numItems type source flags =>
      if OSPDataCreationFlags.OSP_DATA_SHARED_BUFFER ∈ flags then
        some (h, numItems, numItems * type.byteSize, source.sizeof)
      else none
  | _ => none

/-- Vertex position number `k` of `TRIANGLE_VERTICES`: three consecutive
floats. -/
def vertexAt (k : Nat) : ℚ × ℚ × ℚ :=
  (TRIANGLE_VERTICES.getD (3 * k) 0, TRIANGLE_VERTICES.getD (3 * k + 1) 0,
    TRIANGLE_VERTICES.getD (3 * k + 2) 0)

/-- Number of vertex positions held by `TRIANGLE_VERTICES`, 3 floats each. -/
def numVertices : Nat := TRIANGLE_VERTICES.length / 3

/-- Number of texture coordinates held by `TRIANGLE_UVS`, 2 floats each. -/
def numUVs : Nat := TRIANGLE_UVS.length / 2

/-- A world in which library initialization succeeds and the PNG writer
reports success. -/
def okWorld : World := { ospInit := fun _ => OSP_NO_ERROR, stbi_write_png := 1 }

/-- A world in which library initialization fails with status 1. -/
def failWorld : World := { ospInit := fun _ => 1, stbi_write_png := 1 }

/-- Handles stored in an array handed to `ospNewData`: the vector `lights`
holds `lights[0]`; the constant arrays hold numbers only. -/
def Arr.handles : Arr → List Obj
  | .lights => [.light0]
  | _ => []

/-- The handle a creation call returns, if the call is one. -/
def Call.created : Call → Option Obj
  | .ospNewGeometry h _ => some h
  | .ospNewData h _ _ _ _ => some h
  | .ospNewTexture h _ => some h
  | .ospNewMaterial2 h _ _ => some h
  | .ospNewModel h => some h
  | .ospNewCamera h _ => some h
  | .ospNewLight3 h _ => some h
  | .ospNewRenderer h _ => some h
  | .ospNewFrameBuffer h _ _ _ _ => some h
  | _ => none

/-- The object an `ospCommit` call commits. -/
def Call.committed : Call → Option Obj
  | .ospCommit o => some o
  | _ => none

/-- The handle an `ospRelease` call releases. -/
def Call.released : Call → Option Obj
  | .ospRelease o => some o
  | _ => none

/-- The object whose parameters a call sets: the first argument of the
`ospSet*` calls, the geometry of `ospSetMaterial`, the model of
`ospAddGeometry`. -/
def Call.configured : Call → Option Obj
  | .ospSetData o _ _ => some o
  | .ospSetObject o _ _ => some o
  | .ospSetMaterial g _ => some g
  | .ospAddGeometry m _ => some m
  | .ospSet1i o _ _ => some o
  | .ospSet2i o _ _ _ => some o
  | .ospSet1f o _ _ => some o
  | .ospSet3f o _ _ _ _ => some o
  | _ => none

/-- The objects a call consumes as inputs of a dependent object or of the
render call: the value bound by `ospSetData`, `ospSetObject`,
`ospSetMaterial` and `ospAddGeometry`, the handles stored in the array given
to `ospNewData`, and the frame buffer and renderer of `ospRenderFrame`. -/
def Call.consumed : Call → List Obj
  | .ospSetData _ _ d => [d]
  | .ospSetObject _ _ v => [v]
  | .ospSetMaterial _ m => [m]
  | .ospAddGeometry _ g => [g]
  | .ospNewData _ _ _ source _ => source.handles
  | .ospRenderFrame fb r _ => [fb, r]
  | _ => []

/-- The frame buffer a mapped pointer points into. -/
def Ptr.owner : Ptr → Obj
  | .mapped fb _ => fb

/-- Every handle that appears among the arguments of a call (the handle a
creation call returns is its result, not an argument). -/
def Call.handles : Call → List Obj
  | .ospNewData _ _ _ source _ => source.handles
  | .ospCommit o => [o]
  | .ospRelease o => [o]
  | .ospSetData o _ d => [o, d]
  | .ospSetObject o _ v => [o, v]
  | .ospSetMaterial g m => [g, m]
  | .ospAddGeometry m g => [m, g]
  | .ospSet1i o _ _ => [o]
  | .ospSet2i o _ _ _ => [o]
  | .ospSet1f o _ _ => [o]
  | .ospSet3f o _ _ _ _ => [o]
  | .ospRenderFrame fb r _ => [fb, r]
  | .ospMapFrameBuffer fb _ => [fb]
  | .stbi_write_png _ _ _ _ data _ => [data.owner]
  | .ospUnmapFrameBuffer p fb => [p.owner, fb]
  | _ => []

/-- Commit-before-use for object `o` along a call sequence `t`: `t` splits
around a commit of `o` such that `o` is created before it, nothing before it
consumes `o`, and nothing after it sets a parameter of `o` or commits `o`
again.  So that commit is the last one, every parameter set on `o` precedes
it, and it precedes every consumption of `o`. -/
def CommitBeforeUse (t : List Call) (o : Obj) : Prop :=
  ∃ pre post, t = pre ++ Call.ospCommit o :: post ∧
    (∃ c ∈ pre, c.created = some o) ∧
    (∀ c ∈ pre, o ∉ c.consumed) ∧
    (∀ c ∈ post, c.configured ≠ some o ∧ c.committed ≠ some o)

/-- Release discipline for handle `o` along a call sequence `t`: `t` splits
around a release of `o` such that `o` is created before it and not released
before it, and no later call releases `o` or has `o` among its arguments. -/
def ReleasedOnce (t : List Call) (o : Obj) : Prop :=
  ∃ pre post, t = pre ++ Call.ospRelease o :: post ∧
    (∃ c ∈ pre, c.created = some o) ∧
    (∀ c ∈ pre, c.released ≠ some o) ∧
    (∀ c ∈ post, c.released ≠ some o ∧ o ∉ c.handles)

/-! ## Reference counting -/

/-- Modelled from the spec: the bookkeeping of the rendering library (the
library is not part of the sources): for every handle its reference count, "a
count of active owners of a handle", and the children it holds. -/
structure RefState where
  count : Obj → Nat
  children : Obj → List Obj

/-- Ways the reference-counting model can fail. -/
inductive RefError where
  | outOfFuel
  | releaseOfDead (o : Obj)
  deriving DecidableEq, Repr

/-- Modelled from the spec: before any creation call every count is zero and
nothing is held. -/
def RefState.empty : RefState := { count := fun _ => 0, children := fun _ => [] }

/-- Modelled from the spec: "creation gives count 1". -/
def RefState.create (s : RefState) (h : Obj) : RefState :=
  { count := fun x => if x = h then 1 else s.count x
    children := fun x => if x = h then [] else s.children x }

/-- Modelled from the spec: "attaching to a parent adds 1", and the parent
then holds the child. -/
def RefState.attach (s : RefState) (parent child : Obj) : RefState :=
  { count := fun x => if x = child then s.count child + 1 else s.count x
    children := fun x => if x = parent then child :: s.children parent else s.children x }

/-- Modelled from the spec: "release subtracts 1, an object whose count reaches
zero is destroyed and releases each child it holds".  The cascade is bounded
by `fuel`; running out of fuel and releasing a handle whose count is already
zero are errors. -/
def RefState.release : Nat → RefState → Obj → Except RefError RefState
  | 0, _, _ => .error .outOfFuel
  | fuel + 1, s, o =>
    if s.count o = 0 then .error (.releaseOfDead o)
    else if s.count o = 1 then
      (s.children o).foldlM (fun acc c => RefState.release fuel acc c)
        { count := fun x => if x = o then 0 else s.count x
          children := fun x => if x = o then [] else s.children x }
    else .ok { s with count := fun x => if x = o then s.count o - 1 else s.count x }

/-- Modelled from the spec: effect of one call of `main` on the reference
counts under the rule "creation gives count 1, attaching to a parent adds 1,
release subtracts 1": each of the nine creation calls creates its handle, the
four calls that bind an object to a parent (`ospSetData`, `ospSetObject`,
`ospSetMaterial`, `ospAddGeometry`) attach it, `ospRelease` releases, and
every other call leaves the counts alone.  The library is not part of the
sources. -/
def RefState.step (fuel : Nat) (s : RefState) : Call → Except RefError RefState
  | .ospNewGeometry h _ => .ok (s.create h)
  | .ospNewData h _ _ _ _ => .ok (s.create h)
  | .ospNewTexture h _ => .ok (s.create h)
  | .ospNewMaterial2 h _ _ => .ok (s.create h)
  | .ospNewModel h => .ok (s.create h)
  | .ospNewCamera h _ => .ok (s.create h)
  | .ospNewLight3 h _ => .ok (s.create h)
  | .ospNewRenderer h _ => .ok (s.create h)
  | .ospNewFrameBuffer h _ _ _ _ => .ok (s.create h)
  | .ospSetData o _ d => .ok (s.attach o d)
  | .ospSetObject o _ v => .ok (s.attach o v)
  | .ospSetMaterial g m => .ok (s.attach g m)
  | .ospAddGeometry m g => .ok (s.attach m g)
  | .ospRelease o => s.release fuel o
  | _ => .ok s

/-- Modelled from the spec: the reference-counting rule applied to a call
sequence, call after call, from state `s`; the first error stops the run. -/
def RefState.runFrom (fuel : Nat) (s : RefState) : List Call → Except RefError RefState
  | [] => .ok s
  | c :: cs =>
    match s.step fuel c with
    | .ok s1 => RefState.runFrom fuel s1 cs
    | .error e => .error e

/-- Modelled from the spec: reference counts after a call sequence, starting
with no object; a release cascade may be as deep as the number of handles,
13. -/
def refCounts (t : List Call) : Except RefError RefState :=
  RefState.runFrom allObjs.length RefState.empty t

/-- Whether the model ran to a state satisfying `P`. -/
def okAnd (r : Except RefError RefState) (P : RefState → Bool) : Bool :=
  match r with
  | .ok s => P s
  | .error _ => false

/-- The pairs (dependent object, input) a call establishes: the object bound
by `ospSetData`, `ospSetObject`, `ospSetMaterial` or `ospAddGeometry` is an
input of the object it is bound to, and every handle stored in the array
given to `ospNewData` is an input of the new buffer (line 130 builds
`lightData` from `lights[0]`). -/
def Call.inputs : Call → List (Obj × Obj)
  | .ospSetData o _ d => [(o, d)]
  | .ospSetObject o _ v => [(o, v)]
  | .ospSetMaterial g m => [(g, m)]
  | .ospAddGeometry m g => [(m, g)]
  | .ospNewData h _ _ source _ => source.handles.map (fun c => (h, c))
  | _ => []

/-- All (dependent object, input) pairs of a call sequence. -/
def inputsOf : List Call → List (Obj × Obj)
  | [] => []
  | c :: cs => c.inputs ++ inputsOf cs

/-- The objects `p` needs according to the pairs `deps`: `p` itself, its
inputs, their inputs and so on, followed to depth `fuel`. -/
def neededBy (deps : List (Obj × Obj)) : Nat → Obj → List Obj
  | 0, p => [p]
  | fuel + 1, p =>
    p :: ((deps.filter (fun d => d.1 = p)).map Prod.snd).foldr
      (fun c acc => neededBy deps fuel c ++ acc) []

/-- No object needed by the renderer has reached count zero at any point of
the first `k` calls of `t`: after each prefix of at most `k` calls, if the
renderer is alive (positive count) then every object it needs, through the
bindings made so far, has a positive count. -/
def NeededStayAlive (t : List Call) (k : Nat) : Prop :=
  ∀ n ≤ k, ∀ s, refCounts (t.take n) = .ok s → 0 < s.count .renderer →
    ∀ o ∈ neededBy (inputsOf (t.take n)) allObjs.length .renderer, 0 < s.count o

/-! ## Pixel rows -/

/-- Modelled from the spec: byte offset, within the mapped colour channel of
the frame buffer created by the call, of channel `c` of the pixel in column
`x` and row `y` counted from the bottom ("the library's image coordinate
origin is bottom-left"): rows follow one another, row 0 first.  The library
is not part of the sources. -/
def Call.fbByteOffset : Call → Nat → Nat → Nat → Int
  | .ospNewFrameBuffer _ sizeX _ format _, x, y, c =>
      (y * sizeX + x) * format.bytesPerPixel + c
  | _, _, _, _ => 0

/-- Modelled from the spec: byte offset, from the data pointer of the call,
that the PNG writer reads for channel `c` of the file pixel in column `x` and
row `r` counted from the top ("the image-file writer's origin is top-left";
"raw interleaved pixel bytes, width, height, channel count, and row stride").
The header stb_image_write.h is not part of the sources. -/
def Call.pngByteOffset : Call → Nat → Nat → Nat → Int
  | .stbi_write_png _ _ _ comp _ stride, x, r, c => r * stride + x * comp + c
  | _, _, _, _ => 0

/-- Row stride passed to the PNG writer by the call. -/
def Call.pngStride : Call → Int
  | .stbi_write_png _ _ _ _ _ stride => stride
  | _ => 0

/-- Height above the bottom row of the row that is number `r` from the top
in an image of `height` rows. -/
def rowFromBottom (height r : Nat) : Nat := height - 1 - r

/-! ## Camera and projection -/

/-- The value a call gives to the float parameter `id` of object `o`. -/
def Call.float1 (o : Obj) (id : String) : Call → Option ℚ
  | .ospSet1f o1 id1 x => if o1 = o ∧ id1 = id then some x else none
  | _ => none

/-- The value a call gives to the three-float parameter `id` of object `o`. -/
def Call.float3 (o : Obj) (id : String) : Call → Option (ℚ × ℚ × ℚ)
  | .ospSet3f o1 id1 x y z => if o1 = o ∧ id1 = id then some (x, y, z) else none
  | _ => none

/-- The size a call gives to a frame buffer it creates. -/
def Call.frameSize : Call → Option (Int × Int)
  | .ospNewFrameBuffer _ sizeX sizeY _ _ => some (sizeX, sizeY)
  | _ => none

/-- Parameters of the orthographic camera and the size of the image. -/
structure OrthoView where
  width : ℚ
  height : ℚ
  pos : ℚ × ℚ × ℚ
  imageX : Int
  imageY : Int

/-- The camera parameters and image size a call sequence sets: the last
values given to "width", "height" and "pos" of `camera`, and the size of the
last frame buffer created. -/
def viewOf (t : List Call) : Option OrthoView :=
  match (t.filterMap (Call.float1 .camera "width")).getLast?,
      (t.filterMap (Call.float1 .camera "height")).getLast?,
      (t.filterMap (Call.float3 .camera "pos")).getLast?,
      (t.filterMap Call.frameSize).getLast? with
  | some wd, some ht, some p, some (ix, iy) =>
      some { width := wd, height := ht, pos := p, imageX := ix, imageY := iy }
  | _, _, _, _ => none

/-- Modelled from the spec: "the linear map of that rectangle onto the 400×400
image": the view rectangle of the given width and height centred on the
camera position is mapped linearly onto the image, its lower left corner to
pixel coordinate (0, 0) and its upper right corner to (imageX, imageY).  The
projection performed by the library is not part of the sources. -/
def OrthoView.toPixel (v : OrthoView) (p : ℚ × ℚ × ℚ) : ℚ × ℚ :=
  ((p.1 - (v.pos.1 - v.width / 2)) / v.width * v.imageX,
   (p.2.1 - (v.pos.2.1 - v.height / 2)) / v.height * v.imageY)

/-- The point of the triangle with barycentric weights `a`, `b`, `c` on the
three vertex positions. -/
def trianglePoint (a b c : ℚ) : ℚ × ℚ × ℚ :=
  (a * (vertexAt 0).1 + b * (vertexAt 1).1 + c * (vertexAt 2).1,
   a * (vertexAt 0).2.1 + b * (vertexAt 1).2.1 + c * (vertexAt 2).2.1,
   a * (vertexAt 0).2.2 + b * (vertexAt 1).2.2 + c * (vertexAt 2).2.2)

/-! ## Shared lemmas -/

theorem main_trace_ok (argv : List String) (w : World)
    (h : w.ospInit argv = OSP_NO_ERROR) :
    (main argv w).trace = .ospInit argv :: renderCalls := by
  simp [main, h]

theorem main_trace_fail (argv : List String) (w : World)
    (h : w.ospInit argv ≠ OSP_NO_ERROR) :
    (main argv w).trace = [.ospInit argv, .cerr initErrorText] := by
  simp [main, h]

/-! ## Exit status and the failure path -/

/-- C1: for every argument vector and every world, `main` returns a non-zero
status exactly when `ospInit` returns something other than `OSP_NO_ERROR`, and
returns 0 exactly when initialization succeeds; the status reported by the PNG
writer plays no part. -/
theorem main_exit_status (argv : List String) (w : World) :
    ((main argv w).exit ≠ 0 ↔ w.ospInit argv ≠ OSP_NO_ERROR) ∧
    ((main argv w).exit = 0 ↔ w.ospInit argv = OSP_NO_ERROR) ∧
    (∀ r : Int, (main argv { w with stbi_write_png := r }).exit = (main argv w).exit) := by
  by_cases h : w.ospInit argv = OSP_NO_ERROR
  · simp [main, h, EXIT_SUCCESS]
  · simp [main, h, EXIT_FAILURE]

/-- C2: when `ospInit` fails, the calls of `main` are `ospInit` followed by the
one write of the diagnostic text to standard error and nothing else: no later
call is a library call, none is a call of the PNG writer, and the status is
the failure status. -/
theorem init_failure_trace (argv : List String) (w : World)
    (h : w.ospInit argv ≠ OSP_NO_ERROR) :
    (main argv w).trace = [.ospInit argv, .cerr initErrorText] ∧
    (main argv w).trace.tail = [.cerr initErrorText] ∧
    (∀ c ∈ (main argv w).trace.tail, c.isLibraryCall = false) ∧
    (∀ c ∈ (main argv w).trace, c.isPngWrite = false) ∧
    initErrorText ≠ "" ∧
    (main argv w).exit = EXIT_FAILURE := by
  rw [main_trace_fail argv w h]
  refine ⟨rfl, rfl, ?_, ?_, by decide, ?_⟩
  · simp [Call.isLibraryCall]
  · simp [Call.isPngWrite]
  · simp [main, h]

theorem init_failure_trace_witness :
    failWorld.ospInit ["hello-ospray"] ≠ OSP_NO_ERROR ∧
    (main ["hello-ospray"] failWorld).trace =
      [.ospInit ["hello-ospray"], .cerr initErrorText] :=
  ⟨by decide, (init_failure_trace ["hello-ospray"] failWorld (by decide)).1⟩

/-! ## The PNG write -/

/-- C3: when initialization succeeds the PNG writer is called exactly once,
with "output.png", width 400, height 400, 4 channels, the pointer mapped from
the colour channel of `frameBuffer` and stride 1600; that frame buffer is the
only one created, 400 by 400 in the RGBA8 format, it is mapped once, and the
640000 bytes the writer reads are the byte size of that frame buffer. -/
theorem png_write_once (argv : List String) (w : World)
    (h : w.ospInit argv = OSP_NO_ERROR) :
    (main argv w).trace.filter Call.isPngWrite =
      [.stbi_write_png "output.png" 400 400 4 (.mapped .frameBuffer .OSP_FB_COLOR) 1600] ∧
    (main argv w).trace.filter Call.isNewFrameBuffer =
      [.ospNewFrameBuffer .frameBuffer 400 400 .OSP_FB_RGBA8 [.OSP_FB_COLOR]] ∧
    (main argv w).trace.filter Call.isMapFrameBuffer =
      [.ospMapFrameBuffer .frameBuffer .OSP_FB_COLOR] ∧
    (400 : Int) * 4 = 1600 ∧
    ((main argv w).trace.filter Call.isPngWrite).map Call.pngBytesRead = [640000] ∧
    ((main argv w).trace.filter Call.isNewFrameBuffer).map Call.frameBufferBytes = [640000] := by
  rw [main_trace_ok argv w h]
  refine ⟨?_, ?_, ?_, by norm_num, ?_, ?_⟩ <;> rfl

theorem png_write_once_witness :
    okWorld.ospInit ["hello-ospray"] = OSP_NO_ERROR ∧
    ((main ["hello-ospray"] okWorld).trace.filter Call.isPngWrite).map Call.pngBytesRead
      = [640000] :=
  ⟨rfl, (png_write_once ["hello-ospray"] okWorld rfl).2.2.2.2.1⟩

/-! ## Buffers and indices -/

/-- C6 (evaluation of the code): in a run whose initialization succeeds, the
four shared data buffers are declared as follows (handle, element count,
bytes described, bytes of the backing array): the vertex buffer is declared
with 9 elements of `OSP_FLOAT3`, that is 108 bytes over the 36-byte array,
whereas the index, UV and texel buffers describe exactly their arrays. -/
theorem shared_views_of_run :
    (main ["hello-ospray"] okWorld).trace.filterMap Call.sharedView =
      [(.triangleVertexBuffer, 9, 108, 36), (.triangleIndexBuffer, 3, 12, 12),
       (.triangleUVbuffer, 3, 24, 24), (.texelsBuffer, 12, 12, 12)] := by
  rfl

/-- C8: each of the three values of `TRIANGLE_INDICES` is at least 0 and
below the number of vertex positions of `TRIANGLE_VERTICES`, which is 3 (nine
floats, three per position), and `TRIANGLE_UVS` holds one texture coordinate
(two floats) per vertex position. -/
theorem indices_within_vertices :
    (∀ i ∈ TRIANGLE_INDICES, 0 ≤ i ∧ i < (numVertices : Int)) ∧
    TRIANGLE_INDICES.length = 3 ∧
    numVertices = 3 ∧ TRIANGLE_VERTICES.length = 3 * numVertices ∧
    numUVs = numVertices ∧ TRIANGLE_UVS.length = 2 * numUVs := by
  decide

/-! ## Commit before use, release exactly once -/

theorem commitBeforeUse_cons_init (argv : List String) (t : List Call) (o : Obj)
    (h : CommitBeforeUse t o) : CommitBeforeUse (.ospInit argv :: t) o := by
  obtain ⟨pre, post, ht, ⟨c, hc, hco⟩, hpre, hpost⟩ := h
  refine ⟨.ospInit argv :: pre, post, by simp [ht], ⟨c, by simp [hc], hco⟩, ?_, hpost⟩
  intro d hd
  rcases List.mem_cons.mp hd with rfl | hd
  · simp [Call.consumed]
  · exact hpre d hd

theorem releasedOnce_cons_init (argv : List String) (t : List Call) (o : Obj)
    (h : ReleasedOnce t o) : ReleasedOnce (.ospInit argv :: t) o := by
  obtain ⟨pre, post, ht, ⟨c, hc, hco⟩, hpre, hpost⟩ := h
  refine ⟨.ospInit argv :: pre, post, by simp [ht], ⟨c, by simp [hc], hco⟩, ?_, hpost⟩
  intro d hd
  rcases List.mem_cons.mp hd with rfl | hd
  · simp [Call.released]
  · exact hpre d hd

theorem renderCalls_commitBeforeUse (o : Obj) : CommitBeforeUse renderCalls o := by
  cases o
  · exact ⟨renderCalls.take 27, renderCalls.drop 28, rfl, by decide, by decide, by decide⟩
  · exact ⟨renderCalls.take 2, renderCalls.drop 3, rfl, by decide, by decide, by decide⟩
  · exact ⟨renderCalls.take 4, renderCalls.drop 5, rfl, by decide, by decide, by decide⟩
  · exact ⟨renderCalls.take 6, renderCalls.drop 7, rfl, by decide, by decide, by decide⟩
  · exact ⟨renderCalls.take 20, renderCalls.drop 21, rfl, by decide, by decide, by decide⟩
  · exact ⟨renderCalls.take 18, renderCalls.drop 19, rfl, by decide, by decide, by decide⟩
  · exact ⟨renderCalls.take 24, renderCalls.drop 25, rfl, by decide, by decide, by decide⟩
  · exact ⟨renderCalls.take 31, renderCalls.drop 32, rfl, by decide, by decide, by decide⟩
  · exact ⟨renderCalls.take 37, renderCalls.drop 38, rfl, by decide, by decide, by decide⟩
  · exact ⟨renderCalls.take 39, renderCalls.drop 40, rfl, by decide, by decide, by decide⟩
  · exact ⟨renderCalls.take 41, renderCalls.drop 42, rfl, by decide, by decide, by decide⟩
  · exact ⟨renderCalls.take 47, renderCalls.drop 48, rfl, by decide, by decide, by decide⟩
  · exact ⟨renderCalls.take 52, renderCalls.drop 53, rfl, by decide, by decide, by decide⟩

theorem renderCalls_releasedOnce (o : Obj) : ReleasedOnce renderCalls o := by
  cases o
  · exact ⟨renderCalls.take 32, renderCalls.drop 33, rfl, by decide, by decide, by decide⟩
  · exact ⟨renderCalls.take 10, renderCalls.drop 11, rfl, by decide, by decide, by decide⟩
  · exact ⟨renderCalls.take 11, renderCalls.drop 12, rfl, by decide, by decide, by decide⟩
  · exact ⟨renderCalls.take 12, renderCalls.drop 13, rfl, by decide, by decide, by decide⟩
  · exact ⟨renderCalls.take 25, renderCalls.drop 26, rfl, by decide, by decide, by decide⟩
  · exact ⟨renderCalls.take 21, renderCalls.drop 22, rfl, by decide, by decide, by decide⟩
  · exact ⟨renderCalls.take 28, renderCalls.drop 29, rfl, by decide, by decide, by decide⟩
  · exact ⟨renderCalls.take 49, renderCalls.drop 50, rfl, by decide, by decide, by decide⟩
  · exact ⟨renderCalls.take 48, renderCalls.drop 49, rfl, by decide, by decide, by decide⟩
  · exact ⟨renderCalls.take 57, renderCalls.drop 58, rfl, by decide, by decide, by decide⟩
  · exact ⟨renderCalls.take 50, renderCalls.drop 51, rfl, by decide, by decide, by decide⟩
  · exact ⟨renderCalls.take 58, renderCalls.drop 59, rfl, by decide, by decide, by decide⟩
  · exact ⟨renderCalls.take 59, renderCalls.drop 60, rfl, by decide, by decide, by decide⟩

/-- C4: when initialization succeeds, the calls of `main` create each of the
thirteen library objects exactly once, every object consumed or configured by
some call is one of them, and for each of them the call sequence splits
around its last commit: the object is created before that commit, no call
before the commit consumes it, and no call after the commit sets one of its
parameters. -/
theorem commit_before_use (argv : List String) (w : World)
    (h : w.ospInit argv = OSP_NO_ERROR) :
    (main argv w).trace.filterMap Call.created = allObjs ∧
    allObjs.Nodup ∧
    (∀ o : Obj, o ∈ allObjs ∧ CommitBeforeUse (main argv w).trace o) := by
  rw [main_trace_ok argv w h]
  refine ⟨rfl, by decide, fun o => ⟨by cases o <;> decide, ?_⟩⟩
  exact commitBeforeUse_cons_init argv _ o (renderCalls_commitBeforeUse o)

theorem commit_before_use_witness :
    okWorld.ospInit ["hello-ospray"] = OSP_NO_ERROR ∧
    CommitBeforeUse (main ["hello-ospray"] okWorld).trace .renderer :=
  ⟨rfl, ((commit_before_use ["hello-ospray"] okWorld rfl).2.2 .renderer).2⟩

/-- C5: when initialization succeeds, the creation calls of `main` return
thirteen pairwise distinct handles, and for each of them the call sequence
splits around one `ospRelease` of it: the handle is created before that
release and not released before it, and no later call releases it again or
has it among its arguments. -/
theorem release_exactly_once (argv : List String) (w : World)
    (h : w.ospInit argv = OSP_NO_ERROR) :
    (main argv w).trace.filterMap Call.created = allObjs ∧
    allObjs.Nodup ∧ allObjs.length = 13 ∧
    (∀ o : Obj, o ∈ allObjs ∧ ReleasedOnce (main argv w).trace o ∧
      (main argv w).trace.countP (fun c => c.released = some o) = 1) := by
  rw [main_trace_ok argv w h]
  refine ⟨rfl, by decide, rfl, fun o => ⟨by cases o <;> decide, ?_, ?_⟩⟩
  · exact releasedOnce_cons_init argv _ o (renderCalls_releasedOnce o)
  · rw [List.countP_cons_of_neg]
    · cases o <;> decide
    · simp [Call.released]

theorem release_exactly_once_witness :
    okWorld.ospInit ["hello-ospray"] = OSP_NO_ERROR ∧
    ReleasedOnce (main ["hello-ospray"] okWorld).trace .frameBuffer :=
  ⟨rfl, ((release_exactly_once ["hello-ospray"] okWorld rfl).2.2.2 .frameBuffer).2.1⟩

/-! ## Reference counts -/

theorem okAnd_exists (r : Except RefError RefState) (P : RefState → Bool)
    (h : okAnd r P = true) : ∃ s, r = .ok s ∧ P s = true := by
  cases r with
  | error e => simp [okAnd] at h
  | ok s => exact ⟨s, rfl, by simpa [okAnd] using h⟩

/-- C9 (as stated, refuted): under the reference-counting rule of the claim,
in a run of `main` whose initialization succeeds, an object needed by the
renderer does reach zero before the shutdown: after the first 59 calls, the
last of which is `ospRelease(lights[0])` of line 162, the renderer still has a
positive count, the light is needed by it through the light list, and the
count of the light is zero. -/
theorem light_count_zero_while_renderer_alive :
    ¬ NeededStayAlive (main ["hello-ospray"] okWorld).trace
        (main ["hello-ospray"] okWorld).trace.length := by
  intro hall
  obtain ⟨s, hs, hP⟩ := okAnd_exists
    (refCounts ((main ["hello-ospray"] okWorld).trace.take 59))
    (fun s => decide (0 < s.count .renderer ∧
      Obj.light0 ∈ neededBy (inputsOf ((main ["hello-ospray"] okWorld).trace.take 59))
        allObjs.length .renderer ∧
      s.count .light0 = 0)) (by decide)
  have hP := of_decide_eq_true hP
  have hpos := hall 59 (by decide) s hs hP.1 .light0 hP.2.1
  omega

/-- C7: when initialization succeeds, the PNG writer is called right after the
frame buffer is mapped, with the mapped pointer itself and a positive stride,
so (under the row layouts of the spec) the byte read for channel `c` of the
file pixel in column `x` of row `r` counted from the top is the byte of the
frame-buffer pixel in column `x` of row `r` counted from the bottom; hence the
frame-buffer pixel (x, y) lands in file row `y` from the top, which is the row
at height 399 - y above the bottom of the file image. -/
theorem png_rows_unflipped (argv : List String) (w : World)
    (h : w.ospInit argv = OSP_NO_ERROR) (x r c : Nat)
    (hx : x < 400) (hr : r < 400) (hc : c < 4) :
    (∃ pre post, (main argv w).trace = pre ++
        [.ospMapFrameBuffer .frameBuffer .OSP_FB_COLOR,
         .stbi_write_png "output.png" 400 400 4 (.mapped .frameBuffer .OSP_FB_COLOR) 1600,
         .ospUnmapFrameBuffer (.mapped .frameBuffer .OSP_FB_COLOR) .frameBuffer] ++ post) ∧
    (∀ wr ∈ (main argv w).trace.filter Call.isPngWrite,
      ∀ fb ∈ (main argv w).trace.filter Call.isNewFrameBuffer,
        0 < wr.pngStride ∧
        wr.pngByteOffset x r c = fb.fbByteOffset x r c ∧
        wr.pngByteOffset x r c < fb.frameBufferBytes) ∧
    rowFromBottom 400 r = 399 - r ∧ rowFromBottom 400 (rowFromBottom 400 r) = r := by
  rw [main_trace_ok argv w h]
  refine ⟨⟨.ospInit argv :: renderCalls.take 54, renderCalls.drop 57, rfl⟩, ?_, ?_⟩
  · have hw : (Call.ospInit argv :: renderCalls).filter Call.isPngWrite =
        [.stbi_write_png "output.png" 400 400 4 (.mapped .frameBuffer .OSP_FB_COLOR) 1600] := rfl
    have hf : (Call.ospInit argv :: renderCalls).filter Call.isNewFrameBuffer =
        [.ospNewFrameBuffer .frameBuffer 400 400 .OSP_FB_RGBA8 [.OSP_FB_COLOR]] := rfl
    rw [hw, hf]
    intro wr hwr fb hfb
    rw [List.mem_singleton] at hwr hfb
    subst hwr hfb
    simp only [Call.pngStride, Call.pngByteOffset, Call.fbByteOffset, Call.frameBufferBytes,
      OSPFrameBufferFormat.bytesPerPixel]
    refine ⟨by norm_num, by push_cast; ring, ?_⟩
    have hx1 : (x : Int) < 400 := by exact_mod_cast hx
    have hr1 : (r : Int) < 400 := by exact_mod_cast hr
    have hc1 : (c : Int) < 4 := by exact_mod_cast hc
    push_cast
    linarith
  · unfold rowFromBottom
    exact ⟨by omega, by omega⟩

theorem png_rows_unflipped_witness :
    okWorld.ospInit ["hello-ospray"] = OSP_NO_ERROR ∧ 7 < 400 ∧ 399 < 400 ∧ 3 < 4 ∧
    rowFromBottom 400 399 = 399 - 399 :=
  ⟨rfl, by decide, by decide, by decide,
    (png_rows_unflipped ["hello-ospray"] okWorld rfl 7 399 3
      (by decide) (by decide) (by decide)).2.2.1⟩

/-! ## The view volume -/

theorem viewOf_trace (argv : List String) :
    viewOf (.ospInit argv :: renderCalls) =
      some { width := 2, height := 2, pos := (0, 0, -1), imageX := 400, imageY := 400 } := by
  rfl

/-- C10: when initialization succeeds, the camera of the call sequence has
width 2, height 2 and position (0, 0, -1) and the image is 400 by 400; the
three vertex positions are (0,0,0), (1,1,0), (1,0,0); each has z above the
camera and lies within half the width and half the height of the camera
position; the linear map of the view rectangle onto the image sends them to
(200,200), (400,400), (400,200); and every point of the triangle (weights
`a`, `b`, `c`, non-negative with sum 1) is sent into the quadrant
200 ≤ x ≤ 400, 200 ≤ y ≤ 400. -/
theorem triangle_in_view (argv : List String) (w : World)
    (h : w.ospInit argv = OSP_NO_ERROR) (a b c : ℚ)
    (ha : 0 ≤ a) (hb : 0 ≤ b) (hc : 0 ≤ c) (habc : a + b + c = 1) :
    ∃ v, viewOf (main argv w).trace = some v ∧
      v.width = 2 ∧ v.height = 2 ∧ v.pos = (0, 0, -1) ∧ v.imageX = 400 ∧ v.imageY = 400 ∧
      numVertices = 3 ∧
      (List.range numVertices).map vertexAt = [(0, 0, 0), (1, 1, 0), (1, 0, 0)] ∧
      (∀ p ∈ (List.range numVertices).map vertexAt,
        v.pos.2.2 < p.2.2 ∧ |p.1 - v.pos.1| ≤ v.width / 2 ∧
          |p.2.1 - v.pos.2.1| ≤ v.height / 2) ∧
      ((List.range numVertices).map vertexAt).map v.toPixel =
        [(200, 200), (400, 400), (400, 200)] ∧
      200 ≤ (v.toPixel (trianglePoint a b c)).1 ∧ (v.toPixel (trianglePoint a b c)).1 ≤ 400 ∧
      200 ≤ (v.toPixel (trianglePoint a b c)).2 ∧ (v.toPixel (trianglePoint a b c)).2 ≤ 400 := by
  rw [main_trace_ok argv w h]
  refine ⟨_, viewOf_trace argv, rfl, rfl, rfl, rfl, rfl, by decide, by rfl, ?_, ?_, ?_⟩
  · have hv : (List.range numVertices).map vertexAt = [(0, 0, 0), (1, 1, 0), (1, 0, 0)] := by
      rfl
    rw [hv]
    intro p hp
    simp only [List.mem_cons, List.mem_singleton, List.not_mem_nil, or_false] at hp
    rcases hp with rfl | rfl | rfl <;> norm_num [abs_le]
  · have hv : (List.range numVertices).map vertexAt = [(0, 0, 0), (1, 1, 0), (1, 0, 0)] := by
      rfl
    rw [hv]
    norm_num [OrthoView.toPixel]
  · have h0 : vertexAt 0 = (0, 0, 0) := rfl
    have h1 : vertexAt 1 = (1, 1, 0) := rfl
    have h2 : vertexAt 2 = (1, 0, 0) := rfl
    simp only [OrthoView.toPixel, trianglePoint, h0, h1, h2]
    norm_num
    refine ⟨?_, ?_, ?_, ?_⟩ <;> nlinarith

theorem triangle_in_view_witness :
    okWorld.ospInit ["hello-ospray"] = OSP_NO_ERROR ∧
    (0 : ℚ) ≤ 1 / 2 ∧ (0 : ℚ) ≤ 1 / 4 ∧ (1 / 2 + 1 / 4 + 1 / 4 : ℚ) = 1 ∧
    ∃ v, viewOf (main ["hello-ospray"] okWorld).trace = some v ∧ v.width = 2 :=
  ⟨rfl, by norm_num, by norm_num, by norm_num,
    (triangle_in_view ["hello-ospray"] okWorld rfl (1 / 2) (1 / 4) (1 / 4)
      (by norm_num) (by norm_num) (by norm_num) (by norm_num)).imp
      (fun _ hv => ⟨hv.1, hv.2.1⟩)⟩

end HelloOspray
